import Mathlib

/-!
# Escalation detection in `support-alert-system`

A shallow embedding of the escalation-tracking core of
`functions/src/scheduler.ts`: the escalation detector
(`checkForBotEscalation`), the race-history fallback query
(`checkRecentBotAssignment`), the closure handler
(`handleConversationClosure`), and the aggregate-counter operations
(`incrementEscalatedSessions`, `decrementEscalatedSessions`, plus the
administrative `resetEscalations` / `recalculateEscalations` endpoints).

Modelling conventions:
* Firestore documents become Lean structures whose optional fields are
  `Option`-valued; a merge write (`set(..., { merge: true })`) updates only
  the fields the source writes, preserving the rest.
* The `conversations` collection is an association list keyed by the
  conversation id string; the singleton `support/current` document is an
  `Option SupportDoc` (a missing document is `none`).
* The `webhook-events` collection is a list of logged events; the ingestion
  timestamp (`new Date().toISOString()`, whose lexicographic order on
  equal-format ISO strings is chronological order) is modelled as a `Nat`.
* JavaScript `objectId : string | number` runtime values become `ObjId`;
  Firestore `==` queries compare typed values, so a number query value
  never matches a string field and vice versa.
* JavaScript truthiness on optional strings (`v && ...`): `undefined`,
  `null` and `""` are falsy.
* Thrown-and-caught errors: `incrementEscalatedSessions` is the one
  operation that throws deterministically (missing counter document); it
  returns `Except`.  The detector's outer `try/catch` swallows the error,
  leaving the store as it was at the throw point.
* The per-event HubSpot data refresh at the end of
  `handleConversationEvent` runs only when an access token is configured
  and is the out-of-scope reconciliation path; it is not modelled.
-/

namespace SupportAlert

/-- Runtime value of a webhook `objectId` field: the upstream delivers JSON,
so the id is either a string or a number. -/
inductive ObjId where
  | str : String → ObjId
  | num : Int → ObjId
deriving DecidableEq, Repr

/-- JavaScript `String(objectId)` as used to build the Firestore document id. -/
def objIdToString : ObjId → String
  | .str s => s
  | .num n => toString n

/-- One inbound webhook event (the fields the escalation core reads). -/
structure WebhookEvent where
  subscriptionType : String
  propertyName : Option String
  propertyValue : Option String
  objectId : ObjId
deriving DecidableEq, Repr

/-- A `webhook-events` document: the event plus its ingestion timestamp
(`storeWebhookEvent` adds `timestamp: new Date().toISOString()`). -/
structure LoggedEvent where
  event : WebhookEvent
  timestamp : Nat
deriving DecidableEq, Repr

/-- A `conversations/{id}` document.  Every field is optional because
documents are built up by merge writes. -/
structure ConvState where
  currentAssignee : Option String
  lastUpdated : Option String
  hasBotAssignment : Option Bool
  status : Option String
  escalated : Option Bool
  escalatedAt : Option String
  escalatedFrom : Option String
  escalatedTo : Option String
  escalationCounted : Option Bool
  closedAt : Option String
deriving DecidableEq, Repr

/-- The empty document a merge write starts from when the conversation does
not exist yet. -/
def ConvState.empty : ConvState :=
  ⟨none, none, none, none, none, none, none, none, none, none⟩

/-- The `sessions` sub-object of the aggregate `support/current` document.
`escalated` may be `null` (data unavailable), hence `Option Int`. -/
structure Sessions where
  active : Option Int
  escalated : Option Int
deriving DecidableEq, Repr

/-- The aggregate `support/current` document (the `tickets` block is never
touched by the escalation core and is preserved by the `...currentData`
spreads, so it is omitted here). -/
structure SupportDoc where
  sessions : Sessions
  lastUpdated : String
  source : String
deriving DecidableEq, Repr

/-- The durable state the escalation core reads and writes. -/
structure Store where
  conversations : List (String × ConvState)
  support : Option SupportDoc
  events : List LoggedEvent
deriving DecidableEq, Repr

/-- JavaScript truthiness for an optional string: `undefined`/`null`/`""`
are falsy. -/
def truthy : Option String → Bool
  | none => false
  | some v => decide (v ≠ "")

/-- Fold a digit list into its decimal value. -/
def digitsToNat (cs : List Char) : Nat :=
  cs.foldl (fun a c => a * 10 + (c.toNat - 48)) 0

/-- JavaScript `parseInt(s, 10)`: skip leading spaces, optional sign, then
the longest digit prefix; `none` models `NaN` (no digits). -/
def parseIntJs (s : String) : Option Int :=
  let cs := s.data.dropWhile (· = ' ')
  let sign : Int := if cs.head? = some '-' then -1 else 1
  let rest := match cs with
    | '-' :: r => r
    | '+' :: r => r
    | r => r
  let ds := rest.takeWhile Char.isDigit
  if ds = [] then none
  else some (sign * (digitsToNat ds : Int))

/-- Look a conversation document up by id (`db.collection("conversations").doc(id).get()`). -/
def lookupConv (l : List (String × ConvState)) (cid : String) : Option ConvState :=
  (l.find? fun p => decide (p.1 = cid)).map Prod.snd

/-- `doc.get()` on the conversations collection of a store. -/
def getConv (s : Store) (cid : String) : Option ConvState :=
  lookupConv s.conversations cid

/-- A Firestore merge write: update the document in place, creating it from
the empty document when absent. -/
def updateConvs : List (String × ConvState) → String → (ConvState → ConvState) →
    List (String × ConvState)
  | [], cid, f => [(cid, f ConvState.empty)]
  | (k, v) :: rest, cid, f =>
      if k = cid then (k, f v) :: rest else (k, v) :: updateConvs rest cid f

/-- The bot-branch merge write of `checkForBotEscalation`:
`{currentAssignee, lastUpdated, hasBotAssignment: true, status: "OPEN"}`. -/
def mergeBotAssignment (assignee now : String) (st : ConvState) : ConvState :=
  { st with currentAssignee := some assignee, lastUpdated := some now,
            hasBotAssignment := some true, status := some "OPEN" }

/-- The escalation merge write of `checkForBotEscalation`. -/
def mergeEscalation (assignee escFrom now : String) (st : ConvState) : ConvState :=
  { st with currentAssignee := some assignee, lastUpdated := some now,
            escalated := some true, escalatedAt := some now,
            escalatedFrom := some escFrom, escalatedTo := some assignee,
            escalationCounted := some true, hasBotAssignment := some true,
            status := some "OPEN" }

/-- The non-escalation human-assignment merge write. -/
def mergeHumanAssignment (assignee now : String) (st : ConvState) : ConvState :=
  { st with currentAssignee := some assignee, lastUpdated := some now,
            status := some "OPEN" }

/-- Does a logged event satisfy the fallback query's filters
(`objectId == <number>` and `propertyName == "assignedTo"`)?  The query
value is `parseInt(conversationId, 10)`; a `NaN` query value (`none`)
matches nothing, and a number query value only matches number-typed
`objectId` fields. -/
def matchesNumId (q : Option Int) (e : LoggedEvent) : Bool :=
  decide (e.event.propertyName = some "assignedTo") &&
    match q with
    | some n => decide (e.event.objectId = ObjId.num n)
    | none => false

/-- Insert into a list kept in descending timestamp order. -/
def insertDesc (e : LoggedEvent) : List LoggedEvent → List LoggedEvent
  | [] => [e]
  | x :: xs => if e.timestamp ≤ x.timestamp then x :: insertDesc e xs else e :: x :: xs

/-- `orderBy("timestamp", "desc")`. -/
def sortDesc (l : List LoggedEvent) : List LoggedEvent :=
  l.foldr insertDesc []

/-- `checkRecentBotAssignment(conversationId)`: query the event log for
`objectId == parseInt(conversationId, 10)` and `propertyName == "assignedTo"`,
newest first, limit 10, and return the first truthy assignee contained in
the configured bot id list. -/
def checkRecentBotAssignment (botIds : List String) (log : List LoggedEvent)
    (conversationId : String) : Option String :=
  let recent := (sortDesc (log.filter (matchesNumId (parseIntJs conversationId)))).take 10
  recent.findSome? fun e =>
    match e.event.propertyValue with
    | some v => if v ≠ "" ∧ v ∈ botIds then some v else none
    | none => none

/-- The escalation decision for a truthy human assignee: with an existing
document, `(previousAssignee ∈ BotIds) || hasBotAssignment`, recording
`escalatedFrom = previousAssignee || "unknown-bot"`; with no document, the
race-history fallback query.  Returns `some escalatedFrom` when the event
is judged an escalation. -/
def escalationDecision (botIds : List String) (s : Store) (cid : String) : Option String :=
  match getConv s cid with
  | some data =>
      let previousAssignee := data.currentAssignee
      let hasBot := data.hasBotAssignment.getD false
      if (truthy previousAssignee ∧ previousAssignee.getD "" ∈ botIds) ∨ hasBot = true then
        some (if truthy previousAssignee then previousAssignee.getD "" else "unknown-bot")
      else none
  | none => checkRecentBotAssignment botIds s.events cid

/-- `incrementEscalatedSessions()`: read-modify-write `support/current`;
throws when the document does not exist. -/
def incrementEscalatedSessions (support : Option SupportDoc) (now : String) :
    Except String SupportDoc :=
  match support with
  | some d =>
      let currentCount := d.sessions.escalated.getD 0
      .ok { d with sessions := { d.sessions with escalated := some (currentCount + 1) },
                   lastUpdated := now, source := "webhook-escalation" }
  | none => .error "Support data document not found"

/-- `decrementEscalatedSessions()`: read-modify-write with a floor of zero;
silently does nothing when the document does not exist. -/
def decrementEscalatedSessions (support : Option SupportDoc) (now : String) :
    Option SupportDoc :=
  match support with
  | some d =>
      let currentCount := d.sessions.escalated.getD 0
      let newCount := max 0 (currentCount - 1)
      some { d with sessions := { d.sessions with escalated := some newCount },
                    lastUpdated := now, source := "webhook-closure" }
  | none => none

/-- The `resetEscalations` administrative endpoint: set the escalated count
to zero when the document exists. -/
def resetEscalations (support : Option SupportDoc) (now : String) : Option SupportDoc :=
  match support with
  | some d =>
      some { d with sessions := { d.sessions with escalated := some 0 },
                    lastUpdated := now, source := "manual-reset" }
  | none => none

/-- The `recalculateEscalations` administrative endpoint: count conversations
with `escalated == true` and `escalationCounted == true` and overwrite the
escalated figure with that count. -/
def recalculateEscalations (convs : List (String × ConvState))
    (support : Option SupportDoc) (now : String) : Option SupportDoc :=
  match support with
  | some d =>
      let escalationCount :=
        (convs.filter fun p =>
          decide (p.2.escalated = some true) && decide (p.2.escalationCounted = some true)).length
      some { d with sessions := { d.sessions with escalated := some (escalationCount : Int) },
                    lastUpdated := now, source := "recalculated" }
  | none => none

/-- `checkForBotEscalation(event)`.  Returns the store after the call; the
outer `try/catch` swallows every error, so the function is total and an
error inside (the deterministic one being a missing counter document during
increment) leaves the store as already written at the throw point. -/
def checkForBotEscalation (botIds : List String) (ev : WebhookEvent) (s : Store)
    (now : String) : Store :=
  let conversationId := objIdToString ev.objectId
  if botIds = [] then s
  else
    match ev.propertyValue with
    | some pv =>
        if pv ≠ "" ∧ pv ∈ botIds then
          { s with conversations :=
              updateConvs s.conversations conversationId (mergeBotAssignment pv now) }
        else if pv ≠ "" then
          match escalationDecision botIds s conversationId with
          | some escFrom =>
              match incrementEscalatedSessions s.support now with
              | .ok d =>
                  { s with support := some d,
                           conversations := updateConvs s.conversations conversationId
                             (mergeEscalation pv escFrom now) }
              | .error _ => s
          | none =>
              { s with conversations :=
                  updateConvs s.conversations conversationId (mergeHumanAssignment pv now) }
        else s
    | none => s

/-- `handleConversationClosure(conversationId)`: when the document exists
and `escalated === true`, decrement the counter and merge
`{status: "CLOSED", closedAt, escalationCounted: false}`; otherwise just
merge `{status: "CLOSED", closedAt}`. -/
def handleConversationClosure (s : Store) (conversationId now : String) : Store :=
  match getConv s conversationId with
  | some data =>
      if data.escalated = some true then
        let closeEscalated : ConvState → ConvState := fun st =>
          { st with status := some "CLOSED", closedAt := some now,
                    escalationCounted := some false }
        { s with support := decrementEscalatedSessions s.support now,
                 conversations := updateConvs s.conversations conversationId closeEscalated }
      else
        let closePlain : ConvState → ConvState := fun st =>
          { st with status := some "CLOSED", closedAt := some now }
        { s with conversations := updateConvs s.conversations conversationId closePlain }
  | none => s

/-- `storeWebhookEvent(event)`: append the event to the `webhook-events` log
with its ingestion timestamp. -/
def storeWebhookEvent (s : Store) (ev : WebhookEvent) (ts : Nat) : Store :=
  { s with events := s.events ++ [⟨ev, ts⟩] }

/-- The conversation branch of `handleConversationEvent`: a `status` change
to `"CLOSED"` runs the closure handler; an `assignedTo` change runs the
escalation detector. -/
def handleConversationEvent (botIds : List String) (ev : WebhookEvent) (s : Store)
    (now : String) : Store :=
  let s1 :=
    if ev.propertyName = some "status" ∧ ev.propertyValue = some "CLOSED" then
      handleConversationClosure s (objIdToString ev.objectId) now
    else s
  if ev.propertyName = some "assignedTo" then checkForBotEscalation botIds ev s1 now
  else s1

/-- `processWebhookEvent(event)`: log the event, then dispatch conversation
events to `handleConversationEvent`. -/
def processWebhookEvent (botIds : List String) (ev : WebhookEvent) (s : Store)
    (now : String) (ts : Nat) : Store :=
  let s1 := storeWebhookEvent s ev ts
  if ev.subscriptionType = "conversation.creation" ∨
      ev.subscriptionType = "conversation.propertyChange" then
    handleConversationEvent botIds ev s1 now
  else s1

/-- Run the escalation detector over a sequence of assignment events, each
with its wall-clock string. -/
def runDetector (botIds : List String) (s : Store) : List (WebhookEvent × String) → Store
  | [] => s
  | (ev, now) :: rest => runDetector botIds (checkForBotEscalation botIds ev s now) rest

/-- An `assignedTo` property-change event. -/
def assignEvent (oid : ObjId) (assignee : String) : WebhookEvent :=
  ⟨"conversation.propertyChange", some "assignedTo", some assignee, oid⟩


/-! ## Helper lemmas -/

theorem lookupConv_updateConvs_self (l : List (String × ConvState)) (cid : String)
    (f : ConvState → ConvState) :
    lookupConv (updateConvs l cid f) cid =
      some (f ((lookupConv l cid).getD ConvState.empty)) := by
  induction l with
  | nil => simp [updateConvs, lookupConv]
  | cons p rest ih =>
      obtain ⟨k, v⟩ := p
      by_cases h : k = cid
      · subst h
        simp [updateConvs, lookupConv]
      · simp only [updateConvs, if_neg h, lookupConv] at ih ⊢
        rw [List.find?_cons_of_neg _ (by simp [h]), List.find?_cons_of_neg _ (by simp [h])]
        exact ih

theorem checkRecentBotAssignment_eq_none_of_no_match (botIds : List String)
    (log : List LoggedEvent) (cid : String)
    (h : ∀ e ∈ log, matchesNumId (parseIntJs cid) e = false) :
    checkRecentBotAssignment botIds log cid = none := by
  unfold checkRecentBotAssignment
  have hnil : log.filter (matchesNumId (parseIntJs cid)) = [] := by
    rw [List.filter_eq_nil_iff]
    intro a ha
    rw [h a ha]
    simp
  rw [hnil]
  rfl


/-! ## Claim theorems -/

/-- Initial aggregate document used by the concrete scenarios: counter at 0. -/
def supportZero : SupportDoc := ⟨⟨some 0, some 0⟩, "t0", "init"⟩

/-- Fresh store with the counter document present and an empty event log. -/
def freshStore : Store := ⟨[], some supportZero, []⟩

/-- C1: processing `[bot(BOT-1), human(AGENT-1), human(AGENT-2)]` for one
conversation increments `sessions.escalated` TWICE, not once: the detector
decides escalation from `(previousAssignee ∈ BotIds) || hasBotAssignment`
and never consults the `escalated`/`escalationCounted` flags, so the
human-to-human reassignment re-enters the escalation branch.  This
contradicts the claim (and the code's own "avoid double-counting" comment):
the counter ends at 2 where the claim requires 1. -/
theorem C1_human_reassignment_double_increments :
    (runDetector ["BOT-1"] freshStore
        [(assignEvent (ObjId.num 42) "BOT-1", "t1"),
         (assignEvent (ObjId.num 42) "AGENT-1", "t2"),
         (assignEvent (ObjId.num 42) "AGENT-2", "t3")]).support =
      some ⟨⟨some 0, some 2⟩, "t3", "webhook-escalation"⟩ := by
  decide

/-- C8: the race-history fallback query is sensitive to the runtime type of
the recorded `objectId`: it queries `objectId == parseInt(conversationId)`,
a number, so an assignment event recorded with the STRING id `"42"` is not
found (result `none`) while the same event recorded with the NUMBER 42 is
found — contradicting "regardless of whether the conversation id was
recorded as a string or a number" and the code's own comment "Handle both
string and number objectId formats". -/
theorem C8_fallback_query_type_sensitive :
    checkRecentBotAssignment ["BOT-1"]
        [⟨assignEvent (ObjId.str "42") "BOT-1", 1⟩] "42" = none ∧
      checkRecentBotAssignment ["BOT-1"]
        [⟨assignEvent (ObjId.num 42) "BOT-1", 1⟩] "42" = some "BOT-1" := by
  decide

/-- Conversation state of an escalated, open conversation (C7 counterexample). -/
def c7EscalatedConv : ConvState :=
  ⟨some "AGENT-7", some "t2", some true, some "OPEN", some true,
   some "t2", some "BOT-1", some "AGENT-7", some true, none⟩

/-- Store for the C7 counterexample: one escalated open conversation and the
counter at 1. -/
def c7Store : Store := ⟨[("9", c7EscalatedConv)], some ⟨⟨some 3, some 1⟩, "t0", "init"⟩, []⟩

/-- The status-change-to-CLOSED webhook event for conversation 9. -/
def c7ClosureEvent : WebhookEvent :=
  ⟨"conversation.propertyChange", some "status", some "CLOSED", ObjId.str "9"⟩

/-- C7 counterexample: with an EMPTY bot id set, processing a status-change
event to `"CLOSED"` is not a no-op: the empty-BotIds guard lives only in
`checkForBotEscalation`, not in `handleConversationClosure`, so the closure
still marks the conversation CLOSED and decrements the counter from 1 to 0.
This falsifies "processing any event ... mutates no conversation state and
leaves the aggregate counter sessions.escalated unchanged". -/
theorem C7_closure_ignores_empty_botids :
    (processWebhookEvent [] c7ClosureEvent c7Store "t9" 7).support ≠ c7Store.support ∧
      (processWebhookEvent [] c7ClosureEvent c7Store "t9" 7).support =
        some ⟨⟨some 3, some 0⟩, "t9", "webhook-closure"⟩ ∧
      (getConv (processWebhookEvent [] c7ClosureEvent c7Store "t9" 7) "9").map
          ConvState.status = some (some "CLOSED") := by
  decide

/-- C7 amended: with an empty bot id set the escalation DETECTOR is a
no-op for every event and every store — assignment-change events mutate no
conversation state and never touch the counter (only a warning is logged);
status-change closure events, however, are handled outside the detector and
are not disabled. -/
theorem C7_empty_botids_disable_detector (ev : WebhookEvent) (s : Store) (now : String) :
    checkForBotEscalation [] ev s now = s := by
  rfl

/-- Store for the C2 counterexample: fresh conversation, counter present,
and both assignment events already recorded in the event log with STRING
object ids (the type `scheduler.ts` itself declares for `objectId`). -/
def c2StringLogStore : Store :=
  ⟨[], some supportZero,
   [⟨assignEvent (ObjId.str "42") "BOT-1", 1⟩,
    ⟨assignEvent (ObjId.str "42") "AGENT-7", 2⟩]⟩

/-- C2 counterexample: true-time sequence bot(timestamp 1) then
human(timestamp 2), both already in the event log, arrival order
human-first.  The fallback query compares the log's STRING-typed
`objectId` against the NUMBER `parseInt("42")`, finds nothing, and the
conversation ends NOT escalated with the counter unchanged — the claim
promised `escalated == true` and one net increment in either arrival
order. -/
theorem C2_string_log_human_first_misses_escalation :
    ((getConv (runDetector ["BOT-1"] c2StringLogStore
        [(assignEvent (ObjId.str "42") "AGENT-7", "tA"),
         (assignEvent (ObjId.str "42") "BOT-1", "tB")]) "42").map
        ConvState.escalated = some none) ∧
      (runDetector ["BOT-1"] c2StringLogStore
        [(assignEvent (ObjId.str "42") "AGENT-7", "tA"),
         (assignEvent (ObjId.str "42") "BOT-1", "tB")]).support =
        c2StringLogStore.support := by
  decide


/-! ### Branch evaluation lemmas for the detector -/

theorem checkForBotEscalation_bot (botIds : List String) (oid : ObjId) (pv now : String)
    (s : Store) (hne : botIds ≠ []) (hpv : pv ≠ "") (hmem : pv ∈ botIds) :
    checkForBotEscalation botIds (assignEvent oid pv) s now =
      { s with conversations :=
          updateConvs s.conversations (objIdToString oid) (mergeBotAssignment pv now) } := by
  simp [checkForBotEscalation, assignEvent, hne, hpv, hmem]

theorem checkForBotEscalation_human_escalation (botIds : List String) (oid : ObjId)
    (pv now escFrom : String) (s : Store) (d : SupportDoc)
    (hne : botIds ≠ []) (hpv : pv ≠ "") (hmem : pv ∉ botIds)
    (hdec : escalationDecision botIds s (objIdToString oid) = some escFrom)
    (hsup : s.support = some d) :
    checkForBotEscalation botIds (assignEvent oid pv) s now =
      { s with
          support := some { d with
            sessions := { d.sessions with
              escalated := some (d.sessions.escalated.getD 0 + 1) },
            lastUpdated := now, source := "webhook-escalation" },
          conversations := updateConvs s.conversations (objIdToString oid)
            (mergeEscalation pv escFrom now) } := by
  simp [checkForBotEscalation, assignEvent, hne, hpv, hmem, hdec, hsup,
        incrementEscalatedSessions]

theorem checkForBotEscalation_human_escalation_nodoc (botIds : List String) (oid : ObjId)
    (pv now escFrom : String) (s : Store)
    (hne : botIds ≠ []) (hpv : pv ≠ "") (hmem : pv ∉ botIds)
    (hdec : escalationDecision botIds s (objIdToString oid) = some escFrom)
    (hsup : s.support = none) :
    checkForBotEscalation botIds (assignEvent oid pv) s now = s := by
  simp [checkForBotEscalation, assignEvent, hne, hpv, hmem, hdec, hsup,
        incrementEscalatedSessions]

theorem checkForBotEscalation_human_no_escalation (botIds : List String) (oid : ObjId)
    (pv now : String) (s : Store)
    (hne : botIds ≠ []) (hpv : pv ≠ "") (hmem : pv ∉ botIds)
    (hdec : escalationDecision botIds s (objIdToString oid) = none) :
    checkForBotEscalation botIds (assignEvent oid pv) s now =
      { s with conversations :=
          updateConvs s.conversations (objIdToString oid) (mergeHumanAssignment pv now) } := by
  simp [checkForBotEscalation, assignEvent, hne, hpv, hmem, hdec]

/-! ### Evaluation lemmas for the escalation decision -/

theorem escalationDecision_of_prev_bot (botIds : List String) (s : Store) (cid b : String)
    (data : ConvState) (hget : getConv s cid = some data)
    (hprev : data.currentAssignee = some b) (hb : b ≠ "") (hmem : b ∈ botIds) :
    escalationDecision botIds s cid = some b := by
  simp [escalationDecision, hget, hprev, truthy, hb, hmem]

theorem escalationDecision_of_hasBot (botIds : List String) (s : Store) (cid : String)
    (data : ConvState) (hget : getConv s cid = some data)
    (hhb : data.hasBotAssignment = some true) :
    escalationDecision botIds s cid =
      some (if truthy data.currentAssignee = true then data.currentAssignee.getD ""
            else "unknown-bot") := by
  simp [escalationDecision, hget, hhb]

theorem escalationDecision_no_state (botIds : List String) (s : Store) (cid : String)
    (hget : getConv s cid = none) :
    escalationDecision botIds s cid = checkRecentBotAssignment botIds s.events cid := by
  simp [escalationDecision, hget]

theorem escalationDecision_not_escalation (botIds : List String) (s : Store) (cid : String)
    (data : ConvState) (hget : getConv s cid = some data)
    (hprev : data.currentAssignee.getD "" ∉ botIds)
    (hhb : data.hasBotAssignment.getD false = false) :
    escalationDecision botIds s cid = none := by
  simp [escalationDecision, hget, hprev, hhb]


/-- C3: for conversation `"42"` with `BotIds = {"BOT-1"}`, no stored state
yet, and the counter document present, processing `assignedTo: "BOT-1"`
then `assignedTo: "AGENT-7"` leaves the conversation with
`escalated = true`, `escalatedFrom = "BOT-1"`, `escalatedTo = "AGENT-7"`,
`escalationCounted = true`, and increments `sessions.escalated` by
exactly 1. -/
theorem C3_bot1_agent7_scenario (s : Store) (d : SupportDoc) (nowA nowB : String)
    (hconv : getConv s "42" = none) (hsup : s.support = some d) :
    (∃ st, getConv (runDetector ["BOT-1"] s
        [(assignEvent (ObjId.str "42") "BOT-1", nowA),
         (assignEvent (ObjId.str "42") "AGENT-7", nowB)]) "42" = some st ∧
      st.escalated = some true ∧ st.escalatedFrom = some "BOT-1" ∧
      st.escalatedTo = some "AGENT-7" ∧ st.escalationCounted = some true) ∧
    (runDetector ["BOT-1"] s
        [(assignEvent (ObjId.str "42") "BOT-1", nowA),
         (assignEvent (ObjId.str "42") "AGENT-7", nowB)]).support.map
        (fun d2 => d2.sessions.escalated) =
      some (some (d.sessions.escalated.getD 0 + 1)) := by
  have hid : objIdToString (ObjId.str "42") = "42" := rfl
  have h1 := checkForBotEscalation_bot ["BOT-1"] (ObjId.str "42") "BOT-1" nowA s
    (by simp) (by simp) (by simp)
  rw [hid] at h1
  have hget1 : getConv
      { s with conversations :=
          updateConvs s.conversations "42" (mergeBotAssignment "BOT-1" nowA) } "42" =
      some (mergeBotAssignment "BOT-1" nowA ConvState.empty) := by
    show lookupConv (updateConvs s.conversations "42" (mergeBotAssignment "BOT-1" nowA)) "42" = _
    rw [lookupConv_updateConvs_self]
    rw [show lookupConv s.conversations "42" = none from hconv]
    rfl
  have hdec : escalationDecision ["BOT-1"]
      { s with conversations :=
          updateConvs s.conversations "42" (mergeBotAssignment "BOT-1" nowA) } "42" =
      some "BOT-1" :=
    escalationDecision_of_prev_bot _ _ _ _ _ hget1 rfl (by simp) (by simp)
  have h2 := checkForBotEscalation_human_escalation ["BOT-1"] (ObjId.str "42")
    "AGENT-7" nowB "BOT-1"
    { s with conversations :=
        updateConvs s.conversations "42" (mergeBotAssignment "BOT-1" nowA) }
    d
    (by simp) (by simp) (by simp) (by rw [hid]; exact hdec) (by exact hsup)
  rw [hid] at h2
  simp only [runDetector, h1, h2]
  constructor
  · refine ⟨mergeEscalation "AGENT-7" "BOT-1" nowB
      (mergeBotAssignment "BOT-1" nowA ConvState.empty), ?_, by rfl, by rfl, by rfl, by rfl⟩
    show lookupConv (updateConvs (updateConvs s.conversations "42"
        (mergeBotAssignment "BOT-1" nowA)) "42"
        (mergeEscalation "AGENT-7" "BOT-1" nowB)) "42" = _
    rw [lookupConv_updateConvs_self, lookupConv_updateConvs_self]
    rw [show lookupConv s.conversations "42" = none from hconv]
    rfl
  · rfl

/-- C3 witness: the scenario run from the fresh store. -/
theorem C3_bot1_agent7_scenario_witness :
    getConv freshStore "42" = none ∧
    ((∃ st, getConv (runDetector ["BOT-1"] freshStore
        [(assignEvent (ObjId.str "42") "BOT-1", "t1"),
         (assignEvent (ObjId.str "42") "AGENT-7", "t2")]) "42" = some st ∧
      st.escalated = some true ∧ st.escalatedFrom = some "BOT-1" ∧
      st.escalatedTo = some "AGENT-7" ∧ st.escalationCounted = some true) ∧
    (runDetector ["BOT-1"] freshStore
        [(assignEvent (ObjId.str "42") "BOT-1", "t1"),
         (assignEvent (ObjId.str "42") "AGENT-7", "t2")]).support.map
        (fun d2 => d2.sessions.escalated) =
      some (some (supportZero.sessions.escalated.getD 0 + 1))) :=
  ⟨by decide, C3_bot1_agent7_scenario freshStore supportZero "t1" "t2" (by decide) rfl⟩


/-- C4: when the human assignment arrives first (no event for the
conversation in the log at detection time, so the fallback scan finds
nothing) and the bot assignment arrives second, the conversation is never
marked escalated and the counter is untouched: a late bot assignment does
not retroactively trigger an escalation. -/
theorem C4_late_bot_assignment_no_escalation (botIds : List String) (b h : String)
    (oid : ObjId) (s : Store) (nowA nowB : String)
    (hb : b ∈ botIds) (hbne : b ≠ "") (hh : h ∉ botIds) (hhne : h ≠ "")
    (hconv : getConv s (objIdToString oid) = none)
    (hnolog : ∀ e ∈ s.events, matchesNumId (parseIntJs (objIdToString oid)) e = false) :
    ((getConv (runDetector botIds s
        [(assignEvent oid h, nowA), (assignEvent oid b, nowB)]) (objIdToString oid)).map
        ConvState.escalated = some none) ∧
    (runDetector botIds s
        [(assignEvent oid h, nowA), (assignEvent oid b, nowB)]).support = s.support := by
  have hne : botIds ≠ [] := List.ne_nil_of_mem hb
  have hdec : escalationDecision botIds s (objIdToString oid) = none := by
    rw [escalationDecision_no_state _ _ _ hconv]
    exact checkRecentBotAssignment_eq_none_of_no_match _ _ _ hnolog
  have h1 := checkForBotEscalation_human_no_escalation botIds oid h nowA s hne hhne hh hdec
  have h2 := checkForBotEscalation_bot botIds oid b nowB
    { s with conversations :=
        updateConvs s.conversations (objIdToString oid) (mergeHumanAssignment h nowA) }
    hne hbne hb
  simp only [runDetector, h1, h2]
  refine ⟨?_, trivial⟩
  show (lookupConv (updateConvs (updateConvs s.conversations (objIdToString oid)
      (mergeHumanAssignment h nowA)) (objIdToString oid)
      (mergeBotAssignment b nowB)) (objIdToString oid)).map ConvState.escalated = some none
  rw [lookupConv_updateConvs_self, lookupConv_updateConvs_self]
  rw [show lookupConv s.conversations (objIdToString oid) = none from hconv]
  rfl

/-- C4 witness: conversation 77 from the fresh store. -/
theorem C4_late_bot_assignment_no_escalation_witness :
    ("AGENT-7" ∉ ["BOT-1"]) ∧
    (((getConv (runDetector ["BOT-1"] freshStore
        [(assignEvent (ObjId.num 77) "AGENT-7", "t1"),
         (assignEvent (ObjId.num 77) "BOT-1", "t2")]) (objIdToString (ObjId.num 77))).map
        ConvState.escalated = some none) ∧
    (runDetector ["BOT-1"] freshStore
        [(assignEvent (ObjId.num 77) "AGENT-7", "t1"),
         (assignEvent (ObjId.num 77) "BOT-1", "t2")]).support = freshStore.support) :=
  ⟨by decide,
   C4_late_bot_assignment_no_escalation ["BOT-1"] "BOT-1" "AGENT-7" (ObjId.num 77)
     freshStore "t1" "t2" (by decide) (by decide) (by decide) (by decide) (by decide)
     (fun e he => absurd he (List.not_mem_nil e))⟩

/-- C5: closing an escalated open conversation decrements the counter by
exactly one (floored at zero), sets `escalationCounted = false`,
`status = "CLOSED"` and `closedAt = now`, and leaves `escalated = true`. -/
theorem C5_closure_decrements_once (s : Store) (cid now : String) (data : ConvState)
    (d : SupportDoc) (hget : getConv s cid = some data)
    (hesc : data.escalated = some true) (hopen : data.status = some "OPEN")
    (hsup : s.support = some d) :
    (handleConversationClosure s cid now).support =
      some { d with sessions := { d.sessions with escalated := some (max 0 (d.sessions.escalated.getD 0 - 1)) }, lastUpdated := now, source := "webhook-closure" } ∧
    ∃ st, getConv (handleConversationClosure s cid now) cid = some st ∧
      st.escalationCounted = some false ∧ st.status = some "CLOSED" ∧
      st.closedAt = some now ∧ st.escalated = some true := by
  constructor
  · simp [handleConversationClosure, hget, hesc, hsup, decrementEscalatedSessions]
  · refine ⟨{ data with status := some "CLOSED", closedAt := some now, escalationCounted := some false }, ?_, rfl, rfl, rfl, hesc⟩
    simp only [handleConversationClosure, hget, if_pos hesc]
    show lookupConv (updateConvs s.conversations cid _) cid = _
    rw [lookupConv_updateConvs_self]
    rw [show lookupConv s.conversations cid = some data from hget]
    rfl

/-- Store for the C5 witness: escalated open conversation 9, counter at 1. -/
def c5Store : Store :=
  ⟨[("9", ⟨some "AGENT-7", some "t2", some true, some "OPEN", some true,
           some "t2", some "BOT-1", some "AGENT-7", some true, none⟩)],
   some ⟨⟨some 3, some 1⟩, "t0", "init"⟩, []⟩

/-- C5 witness: closing the escalated open conversation 9 of `c5Store`. -/
theorem C5_closure_decrements_once_witness :
    ((getConv c5Store "9").map ConvState.escalated = some (some true)) ∧
    ((handleConversationClosure c5Store "9" "t9").support =
      some { (⟨⟨some 3, some 1⟩, "t0", "init"⟩ : SupportDoc) with sessions := { (⟨some 3, some 1⟩ : Sessions) with escalated := some (max 0 (((⟨⟨some 3, some 1⟩, "t0", "init"⟩ : SupportDoc)).sessions.escalated.getD 0 - 1)) }, lastUpdated := "t9", source := "webhook-closure" } ∧
    ∃ st, getConv (handleConversationClosure c5Store "9" "t9") "9" = some st ∧
      st.escalationCounted = some false ∧ st.status = some "CLOSED" ∧
      st.closedAt = some "t9" ∧ st.escalated = some true) :=
  ⟨by decide,
   C5_closure_decrements_once c5Store "9" "t9"
     ⟨some "AGENT-7", some "t2", some true, some "OPEN", some true,
      some "t2", some "BOT-1", some "AGENT-7", some true, none⟩
     ⟨⟨some 3, some 1⟩, "t0", "init"⟩ (by decide) rfl rfl rfl⟩

/-- C9: the closure handler is guarded only by `escalated`, never by
`escalationCounted` or the current status: a conversation already marked
CLOSED with `escalationCounted = false` but `escalated = true` still causes
a further decrement (clamped at zero) on every additional CLOSED event, and
`escalated` stays true afterwards — closure is not idempotent on the
counter. -/
theorem C9_closure_decrements_again (s : Store) (cid now : String) (data : ConvState)
    (d : SupportDoc) (hget : getConv s cid = some data)
    (hesc : data.escalated = some true) (hclosed : data.status = some "CLOSED")
    (hcounted : data.escalationCounted = some false) (hsup : s.support = some d) :
    (handleConversationClosure s cid now).support =
      some { d with sessions := { d.sessions with escalated := some (max 0 (d.sessions.escalated.getD 0 - 1)) }, lastUpdated := now, source := "webhook-closure" } ∧
    (getConv (handleConversationClosure s cid now) cid).map ConvState.escalated =
      some (some true) := by
  constructor
  · simp [handleConversationClosure, hget, hesc, hsup, decrementEscalatedSessions]
  · simp only [handleConversationClosure, hget, if_pos hesc]
    show (lookupConv (updateConvs s.conversations cid _) cid).map ConvState.escalated = _
    rw [lookupConv_updateConvs_self]
    rw [show lookupConv s.conversations cid = some data from hget]
    simp [hesc]

/-- Store for the C9 witness: conversation 9 already CLOSED and no longer
counted, yet still `escalated = true`; counter at 1. -/
def c9Store : Store :=
  ⟨[("9", ⟨some "AGENT-7", some "t3", some true, some "CLOSED", some true,
           some "t2", some "BOT-1", some "AGENT-7", some false, some "t3"⟩)],
   some ⟨⟨some 3, some 1⟩, "t0", "init"⟩, []⟩

/-- C9 witness: a repeated closure event on the already-closed conversation
still decrements the counter from 1 to 0. -/
theorem C9_closure_decrements_again_witness :
    ((getConv c9Store "9").map ConvState.status = some (some "CLOSED")) ∧
    ((handleConversationClosure c9Store "9" "t9").support =
      some { (⟨⟨some 3, some 1⟩, "t0", "init"⟩ : SupportDoc) with sessions := { (⟨some 3, some 1⟩ : Sessions) with escalated := some (max 0 (((⟨⟨some 3, some 1⟩, "t0", "init"⟩ : SupportDoc)).sessions.escalated.getD 0 - 1)) }, lastUpdated := "t9", source := "webhook-closure" } ∧
    (getConv (handleConversationClosure c9Store "9" "t9") "9").map ConvState.escalated =
      some (some true)) :=
  ⟨by decide,
   C9_closure_decrements_again c9Store "9" "t9"
     ⟨some "AGENT-7", some "t3", some true, some "CLOSED", some true,
      some "t2", some "BOT-1", some "AGENT-7", some false, some "t3"⟩
     ⟨⟨some 3, some 1⟩, "t0", "init"⟩ (by decide) rfl rfl rfl rfl⟩

/-- C10: when the aggregate counter document is missing and a human
assignment is judged an escalation, the increment fails
(`Support data document not found`), the error is swallowed by the
detector's own catch, and the store — including the conversation's
escalation fields — is completely unchanged; nothing propagates to the
caller (the detector is total). -/
theorem C10_missing_counter_doc_swallowed (botIds : List String) (oid : ObjId)
    (h now escFrom : String) (s : Store)
    (hne : botIds ≠ []) (hhne : h ≠ "") (hh : h ∉ botIds)
    (hdec : escalationDecision botIds s (objIdToString oid) = some escFrom)
    (hsup : s.support = none) :
    checkForBotEscalation botIds (assignEvent oid h) s now = s ∧
      incrementEscalatedSessions s.support now =
        .error "Support data document not found" := by
  refine ⟨checkForBotEscalation_human_escalation_nodoc botIds oid h now escFrom s
    hne hhne hh hdec hsup, ?_⟩
  rw [hsup]
  rfl

/-- Store for the C10 witness: conversation 42 has a bot history but the
counter document is absent. -/
def c10Store : Store :=
  ⟨[("42", ⟨some "BOT-1", some "t1", some true, some "OPEN", none,
            none, none, none, none, none⟩)], none, []⟩

/-- C10 witness: the human-assignment event on `c10Store` leaves the store
untouched while the increment reports the missing document. -/
theorem C10_missing_counter_doc_swallowed_witness :
    c10Store.support = none ∧
    (checkForBotEscalation ["BOT-1"] (assignEvent (ObjId.num 42) "AGENT-7") c10Store "t2" =
        c10Store ∧
      incrementEscalatedSessions c10Store.support "t2" =
        .error "Support data document not found") :=
  ⟨rfl,
   C10_missing_counter_doc_swallowed ["BOT-1"] (ObjId.num 42) "AGENT-7" "t2" "BOT-1"
     c10Store (by decide) (by decide) (by decide) (by decide) rfl⟩


/-- The nonnegativity predicate on a (possibly missing) counter document:
a present document's `sessions.escalated` reads as at least zero (a `null`
field reads as `0`, matching the code's `|| 0`). -/
def docNonneg : Option SupportDoc → Prop
  | some d2 => 0 ≤ d2.sessions.escalated.getD 0
  | none => True

/-- C6: `sessions.escalated` never becomes negative: from any store whose
counter reads nonnegative, every counter operation of the detector —
increment on escalation, clamped decrement on closure, administrative reset
and recalculation — yields a nonnegative count again (the decrement clamps
at zero by `Math.max(0, n - 1)`). -/
theorem C6_counter_never_negative (s : Store) (now : String)
    (hnn : docNonneg s.support) :
    docNonneg ((incrementEscalatedSessions s.support now).toOption) ∧
    docNonneg (decrementEscalatedSessions s.support now) ∧
    docNonneg (resetEscalations s.support now) ∧
    docNonneg (recalculateEscalations s.conversations s.support now) := by
  rcases hcase : s.support with _ | d
  · simp [incrementEscalatedSessions, decrementEscalatedSessions, resetEscalations,
          recalculateEscalations, docNonneg, Except.toOption]
  · rw [hcase] at hnn
    simp only [docNonneg] at hnn
    refine ⟨?_, ?_, ?_, ?_⟩
    · simp only [incrementEscalatedSessions, Except.toOption, docNonneg]
      simp only [Option.getD_some]
      omega
    · simp only [decrementEscalatedSessions, docNonneg, Option.getD_some]
      simp [le_max_iff]
    · simp [resetEscalations, docNonneg]
    · simp [recalculateEscalations, docNonneg]

/-- C6 witness: the fresh store with the counter at zero. -/
theorem C6_counter_never_negative_witness :
    docNonneg freshStore.support ∧
    (docNonneg ((incrementEscalatedSessions freshStore.support "t1").toOption) ∧
     docNonneg (decrementEscalatedSessions freshStore.support "t1") ∧
     docNonneg (resetEscalations freshStore.support "t1") ∧
     docNonneg (recalculateEscalations freshStore.conversations freshStore.support "t1")) :=
  ⟨by simp [docNonneg, freshStore, supportZero],
   C6_counter_never_negative freshStore "t1" (by simp [docNonneg, freshStore, supportZero])⟩


/-- C2 amended: for a conversation whose true-time sequence is bot-assign
then human-assign, with both events recorded in the event log under the
NUMERIC object id (so that the fallback query's `parseInt` comparison can
match them) and the counter document present, processing the two events in
either arrival order ends with `escalated = true` and exactly one net
increment of `sessions.escalated`. -/
theorem C2_numeric_log_either_order (botIds : List String) (b h : String) (n : Int)
    (tb th : Nat) (d : SupportDoc) (s : Store) (nowA nowB : String)
    (hb : b ∈ botIds) (hbne : b ≠ "") (hh : h ∉ botIds) (hhne : h ≠ "")
    (hround : parseIntJs (toString n) = some n)
    (hconv : getConv s (toString n) = none)
    (hsup : s.support = some d)
    (hlog : s.events =
      [⟨assignEvent (ObjId.num n) b, tb⟩, ⟨assignEvent (ObjId.num n) h, th⟩]) :
    (((getConv (runDetector botIds s
        [(assignEvent (ObjId.num n) b, nowA), (assignEvent (ObjId.num n) h, nowB)])
        (toString n)).map ConvState.escalated = some (some true)) ∧
     (runDetector botIds s
        [(assignEvent (ObjId.num n) b, nowA), (assignEvent (ObjId.num n) h, nowB)]).support.map
        (fun d2 => d2.sessions.escalated) = some (some (d.sessions.escalated.getD 0 + 1))) ∧
    (((getConv (runDetector botIds s
        [(assignEvent (ObjId.num n) h, nowA), (assignEvent (ObjId.num n) b, nowB)])
        (toString n)).map ConvState.escalated = some (some true)) ∧
     (runDetector botIds s
        [(assignEvent (ObjId.num n) h, nowA), (assignEvent (ObjId.num n) b, nowB)]).support.map
        (fun d2 => d2.sessions.escalated) = some (some (d.sessions.escalated.getD 0 + 1))) := by
  have hne : botIds ≠ [] := List.ne_nil_of_mem hb
  have hid : objIdToString (ObjId.num n) = toString n := rfl
  constructor
  · have h1 := checkForBotEscalation_bot botIds (ObjId.num n) b nowA s hne hbne hb
    rw [hid] at h1
    have hget1 : getConv { s with conversations := updateConvs s.conversations (toString n) (mergeBotAssignment b nowA) } (toString n) = some (mergeBotAssignment b nowA ConvState.empty) := by
      show lookupConv (updateConvs s.conversations (toString n)
        (mergeBotAssignment b nowA)) (toString n) = _
      rw [lookupConv_updateConvs_self]
      rw [show lookupConv s.conversations (toString n) = none from hconv]
      rfl
    have hdec1 : escalationDecision botIds { s with conversations := updateConvs s.conversations (toString n) (mergeBotAssignment b nowA) } (toString n) = some b :=
      escalationDecision_of_prev_bot _ _ _ _ _ hget1 rfl hbne hb
    have h2 := checkForBotEscalation_human_escalation botIds (ObjId.num n) h nowB b
      { s with conversations := updateConvs s.conversations (toString n) (mergeBotAssignment b nowA) }
      d hne hhne hh (by rw [hid]; exact hdec1) (by exact hsup)
    rw [hid] at h2
    simp only [runDetector, h1, h2]
    refine ⟨?_, by rfl⟩
    show (lookupConv (updateConvs (updateConvs s.conversations (toString n)
        (mergeBotAssignment b nowA)) (toString n)
        (mergeEscalation h b nowB)) (toString n)).map ConvState.escalated = some (some true)
    rw [lookupConv_updateConvs_self, lookupConv_updateConvs_self]
    rw [show lookupConv s.conversations (toString n) = none from hconv]
    rfl
  · have hm1 : matchesNumId (some n) ⟨assignEvent (ObjId.num n) b, tb⟩ = true := by
      simp [matchesNumId, assignEvent]
    have hm2 : matchesNumId (some n) ⟨assignEvent (ObjId.num n) h, th⟩ = true := by
      simp [matchesNumId, assignEvent]
    have hscan : checkRecentBotAssignment botIds s.events (toString n) = some b := by
      rw [hlog]
      unfold checkRecentBotAssignment
      rw [hround]
      simp only [List.filter_cons, hm1, hm2, if_pos, List.filter_nil, sortDesc,
        List.foldr, insertDesc]
      by_cases hts : tb ≤ th <;>
        simp [hts, List.findSome?, hb, hbne, hh, assignEvent, insertDesc]
    have hdec2 : escalationDecision botIds s (toString n) = some b := by
      rw [escalationDecision_no_state _ _ _ hconv]
      exact hscan
    have h1 := checkForBotEscalation_human_escalation botIds (ObjId.num n) h nowA b s d
      hne hhne hh (by rw [hid]; exact hdec2) hsup
    rw [hid] at h1
    have h2 := checkForBotEscalation_bot botIds (ObjId.num n) b nowB
      { s with support := some { d with sessions := { d.sessions with escalated := some (d.sessions.escalated.getD 0 + 1) }, lastUpdated := nowA, source := "webhook-escalation" }, conversations := updateConvs s.conversations (toString n) (mergeEscalation h b nowA) }
      hne hbne hb
    rw [hid] at h2
    simp only [runDetector, h1, h2]
    refine ⟨?_, by rfl⟩
    show (lookupConv (updateConvs (updateConvs s.conversations (toString n)
        (mergeEscalation h b nowA)) (toString n)
        (mergeBotAssignment b nowB)) (toString n)).map ConvState.escalated = some (some true)
    rw [lookupConv_updateConvs_self, lookupConv_updateConvs_self]
    rw [show lookupConv s.conversations (toString n) = none from hconv]
    rfl

/-- Store for the C2 witness: fresh conversation, counter document present,
both events in the log under the numeric id 42. -/
def c2NumericStore : Store :=
  ⟨[], some supportZero,
   [⟨assignEvent (ObjId.num 42) "BOT-1", 1⟩,
    ⟨assignEvent (ObjId.num 42) "AGENT-7", 2⟩]⟩

/-- C2 witness: conversation 42 with a numeric-id log, both arrival orders. -/
theorem C2_numeric_log_either_order_witness :
    parseIntJs (toString (42 : Int)) = some 42 ∧
    ((((getConv (runDetector ["BOT-1"] c2NumericStore
        [(assignEvent (ObjId.num 42) "BOT-1", "tA"), (assignEvent (ObjId.num 42) "AGENT-7", "tB")])
        (toString (42 : Int))).map ConvState.escalated = some (some true)) ∧
     (runDetector ["BOT-1"] c2NumericStore
        [(assignEvent (ObjId.num 42) "BOT-1", "tA"), (assignEvent (ObjId.num 42) "AGENT-7", "tB")]).support.map
        (fun d2 => d2.sessions.escalated) =
          some (some (supportZero.sessions.escalated.getD 0 + 1))) ∧
    (((getConv (runDetector ["BOT-1"] c2NumericStore
        [(assignEvent (ObjId.num 42) "AGENT-7", "tA"), (assignEvent (ObjId.num 42) "BOT-1", "tB")])
        (toString (42 : Int))).map ConvState.escalated = some (some true)) ∧
     (runDetector ["BOT-1"] c2NumericStore
        [(assignEvent (ObjId.num 42) "AGENT-7", "tA"), (assignEvent (ObjId.num 42) "BOT-1", "tB")]).support.map
        (fun d2 => d2.sessions.escalated) =
          some (some (supportZero.sessions.escalated.getD 0 + 1)))) :=
  ⟨by decide,
   C2_numeric_log_either_order ["BOT-1"] "BOT-1" "AGENT-7" 42 1 2 supportZero
     c2NumericStore "tA" "tB" (by decide) (by decide) (by decide) (by decide)
     (by decide) (by decide) rfl rfl⟩

end SupportAlert
